import Mathlib

/-!
# Verification of the NDC Converter core

A shallow embedding of the format-detection and conversion functions of
`NDC_Converter.py` (the NDC Codec: 10-digit ↔ 11-digit National Drug Code
reformatting), together with proofs of the specified properties.

The Python core works on strings: it strips non-digit characters
(the `re.sub` call that deletes every non-digit), classifies the segment
layout of the digit string, and inserts or removes a single padding zero
at a layout-specific position.  Each Python function is embedded as a
Lean function of the same name; strings are Lean `String`s, and digit
inspection uses `Char.isDigit`, which matches the complement of the
regex class used by the Python code on the ten decimal digits.
-/

/-- The `re.sub` stripping step: keep only decimal-digit characters. -/
def stripNonDigits (s : String) : String := ⟨s.data.filter Char.isDigit⟩

/-- The segment layouts the Python code denotes by the strings
4-4-2, 5-3-2, 5-4-1 and unknown.  The Python `None` result is modelled
by `Option.none` over this type. -/
inductive NdcFormat where
  | f442
  | f532
  | f541
  | unknown
deriving DecidableEq

/-- `digits[0] == '0' and digits[1] != '0'` — the 4-4-2 padding marker of
`detect_11_digit_format`.  Out-of-range indices default to a space
character (the Python code only evaluates these on 11-character
strings). -/
def marker442 (d : List Char) : Bool := d.getD 0 ' ' == '0' && d.getD 1 ' ' != '0'

/-- `digits[5] == '0' and digits[6] != '0'` — the 5-3-2 padding marker. -/
def marker532 (d : List Char) : Bool := d.getD 5 ' ' == '0' && d.getD 6 ' ' != '0'

/-- `digits[9] == '0' and digits[10] != '0'` — the 5-4-1 padding marker. -/
def marker541 (d : List Char) : Bool := d.getD 9 ' ' == '0' && d.getD 10 ' ' != '0'

/-- `detect_11_digit_format(ndc)`: strip non-digits; if the result is not
11 digits long return `(None, digits)`; otherwise test the three padding
markers in priority order, falling back to unknown. -/
def detect_11_digit_format (ndc : String) : Option NdcFormat × String :=
  if (stripNonDigits ndc).length ≠ 11 then (none, stripNonDigits ndc)
  else if marker442 (stripNonDigits ndc).data then (some .f442, stripNonDigits ndc)
  else if marker532 (stripNonDigits ndc).data then (some .f532, stripNonDigits ndc)
  else if marker541 (stripNonDigits ndc).data then (some .f541, stripNonDigits ndc)
  else (some .unknown, stripNonDigits ndc)

/-- The Python `int` conversion on a digit string (the strings fed to
it here are the 4-character slices `ndc_digits[5:9]`). -/
def digitsVal (l : List Char) : Nat :=
  l.foldl (fun a c => a * 10 + (c.toNat - 48)) 0

/-- The list literal `['0', '1', ..., '9']` of the Python membership test
`ndc_digits[9] in ['0','1','2','3','4','5','6','7','8','9']`. -/
def digitChars : List Char := ['0', '1', '2', '3', '4', '5', '6', '7', '8', '9']

/-- `detect_10_digit_format(ndc)`: strip non-digits; `(None, digits)` if
already 11 digits, `(None, ndc)` if not 10 digits; otherwise the
heuristic: a leading digit from 0 to 3 gives 4-4-2, else a product-code
slice `ndc_digits[5:9]` below 9999 gives 5-4-1, else 5-3-2. -/
def detect_10_digit_format (ndc : String) : Option NdcFormat × String :=
  if (stripNonDigits ndc).length = 11 then (none, stripNonDigits ndc)
  else if (stripNonDigits ndc).length ≠ 10 then (none, ndc)
  else if (stripNonDigits ndc).data.getD 0 ' ' ∈ ['0', '1', '2', '3'] then
    (some .f442, stripNonDigits ndc)
  else if (stripNonDigits ndc).data.getD 9 ' ' ∈ digitChars ∧
      digitsVal (((stripNonDigits ndc).data.drop 5).take 4) < 9999 then
    (some .f541, stripNonDigits ndc)
  else (some .f532, stripNonDigits ndc)

/-- `convert_10_to_11(ndc)`: insert the padding zero at the position the
detected layout implies.  The `.unknown` arm is the Python fall-through
`return ndc_digits` after the three format checks. -/
def convert_10_to_11 (ndc : String) : String :=
  match detect_10_digit_format ndc with
  | (none, _) => ndc
  | (some .f442, d) => ⟨'0' :: d.data⟩
  | (some .f532, d) => ⟨d.data.take 5 ++ '0' :: d.data.drop 5⟩
  | (some .f541, d) => ⟨d.data.take 9 ++ '0' :: d.data.drop 9⟩
  | (some .unknown, d) => d

/-- `convert_11_to_10(ndc)`: remove the digit at the layout-specific
inserted position; on unknown, print a warning and return the digit
string unchanged (the warning itself is modelled by
`convert_11_to_10_warning`). -/
def convert_11_to_10 (ndc : String) : String :=
  match detect_11_digit_format ndc with
  | (none, _) => ndc
  | (some .f442, d) => ⟨d.data.drop 1⟩
  | (some .f532, d) => ⟨d.data.take 5 ++ d.data.drop 6⟩
  | (some .f541, d) => ⟨d.data.take 9 ++ d.data.drop 10⟩
  | (some .unknown, d) => d

/-- The diagnostic side effect of `convert_11_to_10`: the
`print(f"Warning: ...")` statement runs exactly when the detected format
is unknown, and this function returns the printed message then. -/
def convert_11_to_10_warning (ndc : String) : Option String :=
  match detect_11_digit_format ndc with
  | (some .unknown, d) => some ("Warning: Could not determine format for NDC " ++ d)
  | _ => none

/-- How many of the three 11-digit padding markers match — used to state
that the layout of an 11-digit string is pinned down by exactly one
marker. -/
def markerCount (d : List Char) : Nat :=
  (if marker442 d then 1 else 0) + (if marker532 d then 1 else 0) +
    (if marker541 d then 1 else 0)

/-- Every character of `s` is a decimal digit. -/
def AllDigits (s : String) : Prop := ∀ c ∈ s.data, c.isDigit = true

/-- The 10-digit classification priority exactly as the specification
words it, stated over an already-stripped digit string: first digit in
`{0,1,2,3}` gives 4-4-2; else a positions-5-to-8 substring of numeric
value below 9999 gives 5-4-1; else 5-3-2.  Written from the sentence of
the specification (not from the code) to compare against
`detect_10_digit_format`. -/
def detectTenDigitFormatSpec (d : String) : NdcFormat :=
  if d.data.getD 0 ' ' ∈ ['0', '1', '2', '3'] then .f442
  else if digitsVal ((d.data.drop 5).take 4) < 9999 then .f541
  else .f532

/-! ## Basic facts about characters and stripping -/

theorem toNat_of_isDigit {c : Char} (h : c.isDigit = true) :
    48 ≤ c.toNat ∧ c.toNat ≤ 57 := by
  simp [Char.isDigit] at h
  obtain ⟨h1, h2⟩ := h
  exact ⟨UInt32.le_toNat_of_le (by decide) h1, UInt32.toNat_le_of_le (by decide) h2⟩

theorem char_eq_iff_toNat {c d : Char} : c = d ↔ c.toNat = d.toNat := by
  constructor
  · intro h; rw [h]
  · intro h
    exact Char.ext (UInt32.toNat.inj h)

theorem mem_digitChars_of_isDigit {c : Char} (h : c.isDigit = true) :
    c ∈ digitChars := by
  obtain ⟨h1, h2⟩ := toNat_of_isDigit h
  interval_cases hn : c.toNat <;> simp_all [digitChars, char_eq_iff_toNat]

theorem strip_data (s : String) :
    (stripNonDigits s).data = s.data.filter Char.isDigit := rfl

theorem strip_allDigits (s : String) : AllDigits (stripNonDigits s) := by
  intro c hc
  rw [strip_data, List.mem_filter] at hc
  exact hc.2

theorem allDigits_strip_eq {s : String} (h : AllDigits s) :
    stripNonDigits s = s := by
  have : s.data.filter Char.isDigit = s.data := List.filter_eq_self.mpr h
  unfold stripNonDigits
  rw [this]

theorem string_mk_length (l : List Char) : (⟨l⟩ : String).length = l.length := rfl

theorem string_data_length (s : String) : s.data.length = s.length := rfl

theorem getD_strip_isDigit (s : String) (i : Nat)
    (h : i < (stripNonDigits s).length) :
    ((stripNonDigits s).data.getD i ' ').isDigit = true := by
  have hlt : i < (stripNonDigits s).data.length := h
  rw [List.getD_eq_getElem?_getD, List.getElem?_eq_getElem hlt]
  exact strip_allDigits s _ (List.getElem_mem hlt)

/-! ## Branch behaviour of the detectors -/

theorem detect_10_of_len11 {s : String} (h : (stripNonDigits s).length = 11) :
    detect_10_digit_format s = (none, stripNonDigits s) := by
  unfold detect_10_digit_format
  rw [if_pos h]

theorem detect_10_of_len_other {s : String} (h10 : (stripNonDigits s).length ≠ 10)
    (h11 : (stripNonDigits s).length ≠ 11) :
    detect_10_digit_format s = (none, s) := by
  unfold detect_10_digit_format
  rw [if_neg h11, if_pos h10]

theorem detect_10_f442 {s : String} (h : (stripNonDigits s).length = 10)
    (h0 : (stripNonDigits s).data.getD 0 ' ' ∈ ['0', '1', '2', '3']) :
    detect_10_digit_format s = (some .f442, stripNonDigits s) := by
  unfold detect_10_digit_format
  rw [if_neg (by omega), if_neg (by omega), if_pos h0]

theorem detect_10_f541 {s : String} (h : (stripNonDigits s).length = 10)
    (h0 : (stripNonDigits s).data.getD 0 ' ' ∉ (['0', '1', '2', '3'] : List Char))
    (hv : digitsVal (((stripNonDigits s).data.drop 5).take 4) < 9999) :
    detect_10_digit_format s = (some .f541, stripNonDigits s) := by
  have h9 : (stripNonDigits s).data.getD 9 ' ' ∈ digitChars :=
    mem_digitChars_of_isDigit (getD_strip_isDigit s 9 (by omega))
  unfold detect_10_digit_format
  rw [if_neg (by omega), if_neg (by omega), if_neg h0, if_pos ⟨h9, hv⟩]

theorem detect_10_f532 {s : String} (h : (stripNonDigits s).length = 10)
    (h0 : (stripNonDigits s).data.getD 0 ' ' ∉ (['0', '1', '2', '3'] : List Char))
    (hv : ¬ digitsVal (((stripNonDigits s).data.drop 5).take 4) < 9999) :
    detect_10_digit_format s = (some .f532, stripNonDigits s) := by
  unfold detect_10_digit_format
  rw [if_neg (by omega), if_neg (by omega), if_neg h0,
    if_neg (fun hc => hv hc.2)]

theorem detect_11_of_len_ne {s : String} (h : (stripNonDigits s).length ≠ 11) :
    detect_11_digit_format s = (none, stripNonDigits s) := by
  unfold detect_11_digit_format
  rw [if_pos h]

theorem detect_11_snd (s : String) :
    (detect_11_digit_format s).2 = stripNonDigits s := by
  unfold detect_11_digit_format
  split
  · rfl
  split
  · rfl
  split
  · rfl
  split <;> rfl

theorem detect_11_unknown {s : String} (h : (stripNonDigits s).length = 11)
    (h1 : marker442 (stripNonDigits s).data = false)
    (h2 : marker532 (stripNonDigits s).data = false)
    (h3 : marker541 (stripNonDigits s).data = false) :
    detect_11_digit_format s = (some .unknown, stripNonDigits s) := by
  unfold detect_11_digit_format
  rw [if_neg (by omega)]
  rw [h1, h2, h3]
  rfl

/-! ## The product-code slice `ndc_digits[5:9]` -/

theorem list_four {α : Type} {l : List α} (h : l.length = 4) :
    ∃ a b c d, l = [a, b, c, d] := by
  cases l with
  | nil => simp at h
  | cons a t =>
    have ht : t.length = 3 := by simpa using h
    obtain ⟨b, c, d, rfl⟩ := List.length_eq_three.mp ht
    exact ⟨a, b, c, d, rfl⟩

theorem digitsVal_lt_iff {a b c d : Char}
    (ha : a.isDigit = true) (hb : b.isDigit = true)
    (hc : c.isDigit = true) (hd : d.isDigit = true) :
    digitsVal [a, b, c, d] < 9999 ↔ [a, b, c, d] ≠ ['9', '9', '9', '9'] := by
  obtain ⟨ha1, ha2⟩ := toNat_of_isDigit ha
  obtain ⟨hb1, hb2⟩ := toNat_of_isDigit hb
  obtain ⟨hc1, hc2⟩ := toNat_of_isDigit hc
  obtain ⟨hd1, hd2⟩ := toNat_of_isDigit hd
  have h9 : ('9' : Char).toNat = 57 := rfl
  simp only [digitsVal, List.foldl_cons, List.foldl_nil, ne_eq, List.cons.injEq,
    and_true, char_eq_iff_toNat, h9, not_and]
  omega

theorem pc_slice {s : String} (h : (stripNonDigits s).length = 10) :
    ∃ a b c d : Char, ((stripNonDigits s).data.drop 5).take 4 = [a, b, c, d] ∧
      a.isDigit = true ∧ b.isDigit = true ∧ c.isDigit = true ∧ d.isDigit = true := by
  have hlen : (((stripNonDigits s).data.drop 5).take 4).length = 4 := by
    rw [List.length_take, List.length_drop, string_data_length, h]
    rfl
  obtain ⟨a, b, c, d, habcd⟩ := list_four hlen
  have hsub : ((stripNonDigits s).data.drop 5).take 4 ⊆ (stripNonDigits s).data :=
    fun x hx => List.drop_subset 5 _ (List.take_subset 4 _ hx)
  refine ⟨a, b, c, d, habcd, ?_, ?_, ?_, ?_⟩ <;>
    apply strip_allDigits s <;> apply hsub <;> rw [habcd]
  · exact List.mem_cons_self a _
  · exact List.mem_cons_of_mem _ (List.mem_cons_self b _)
  · exact List.mem_cons_of_mem _ (List.mem_cons_of_mem _ (List.mem_cons_self c _))
  · exact List.mem_cons_of_mem _ (List.mem_cons_of_mem _
      (List.mem_cons_of_mem _ (List.mem_cons_self d _)))

/-- On a 10-digit input, `detect_10_digit_format` always yields one of
the three real layouts, with the stripped digits as second component. -/
theorem detect_10_some {s : String} (h : (stripNonDigits s).length = 10) :
    ∃ f : NdcFormat,
      (f = .f442 ∨ f = .f532 ∨ f = .f541) ∧
      detect_10_digit_format s = (some f, stripNonDigits s) := by
  by_cases h0 : (stripNonDigits s).data.getD 0 ' ' ∈ (['0', '1', '2', '3'] : List Char)
  · exact ⟨.f442, Or.inl rfl, detect_10_f442 h h0⟩
  by_cases hv : digitsVal (((stripNonDigits s).data.drop 5).take 4) < 9999
  · exact ⟨.f541, Or.inr (Or.inr rfl), detect_10_f541 h h0 hv⟩
  · exact ⟨.f532, Or.inr (Or.inl rfl), detect_10_f532 h h0 hv⟩

/-! ## Converter helpers -/

theorem convert_10_id_of_len_ne {s : String} (h : (stripNonDigits s).length ≠ 10) :
    convert_10_to_11 s = s := by
  by_cases h11 : (stripNonDigits s).length = 11
  · unfold convert_10_to_11
    rw [detect_10_of_len11 h11]
  · unfold convert_10_to_11
    rw [detect_10_of_len_other h h11]

theorem convert_11_id_of_len_ne {s : String} (h : (stripNonDigits s).length ≠ 11) :
    convert_11_to_10 s = s := by
  unfold convert_11_to_10
  rw [detect_11_of_len_ne h]

theorem insert_length (l : List Char) (n : Nat) (hn : n ≤ l.length) :
    (l.take n ++ '0' :: l.drop n).length = l.length + 1 := by
  rw [List.length_append, List.length_take, List.length_cons, List.length_drop]
  omega

theorem allDigits_insert (l : List Char) (hl : ∀ c ∈ l, c.isDigit = true) (n : Nat) :
    ∀ c ∈ l.take n ++ '0' :: l.drop n, c.isDigit = true := by
  intro c hc
  rcases List.mem_append.mp hc with hc | hc
  · exact hl c (List.take_subset n l hc)
  · rcases List.mem_cons.mp hc with rfl | hc
    · decide
    · exact hl c (List.drop_subset n l hc)

/-- Removing the character at position `n` of `l.take n ++ '0' :: l.drop n`
recovers `l`: the removal step of the codec inverts its insertion
step. -/
theorem remove_insert (l : List Char) (n : Nat) (hn : n ≤ l.length) :
    (l.take n ++ '0' :: l.drop n).take n ++ (l.take n ++ '0' :: l.drop n).drop (n + 1) = l := by
  have hlen : (l.take n).length = n := by rw [List.length_take]; omega
  have h1 : (l.take n ++ '0' :: l.drop n).take n = l.take n := List.take_left' hlen
  have h2 : (l.take n ++ '0' :: l.drop n).drop n = '0' :: l.drop n := List.drop_left' hlen
  have h3 : (l.take n ++ '0' :: l.drop n).drop (n + 1) = l.drop n := by
    rw [← List.drop_drop, h2]
    rfl
  rw [h1, h3, List.take_append_drop]

/-! ## The specified properties -/

/-- Claim C2: both converters accept every string (including
separator-formatted ones; they are total Lean functions by construction)
and, whenever no conversion is applicable — the stripped digit length is
not the one the converter works on — they return their input unchanged. -/
theorem ndc_C2_total_worst_case_identity (s : String) :
    (convert_10_to_11 s = s ∨ (stripNonDigits s).length = 10) ∧
    (convert_11_to_10 s = s ∨ (stripNonDigits s).length = 11) := by
  constructor
  · by_cases h : (stripNonDigits s).length = 10
    · exact Or.inr h
    · exact Or.inl (convert_10_id_of_len_ne h)
  · by_cases h : (stripNonDigits s).length = 11
    · exact Or.inr h
    · exact Or.inl (convert_11_id_of_len_ne h)

/-- Claim C3: on an 11-digit input matching none of the three
zero-padding markers, `convert_11_to_10` detects unknown, emits the
warning diagnostic, and returns the 11-digit digit string unchanged. -/
theorem ndc_C3_unknown_diagnostic_identity (s : String)
    (h : (stripNonDigits s).length = 11)
    (h1 : marker442 (stripNonDigits s).data = false)
    (h2 : marker532 (stripNonDigits s).data = false)
    (h3 : marker541 (stripNonDigits s).data = false) :
    (detect_11_digit_format s).1 = some .unknown ∧
    convert_11_to_10 s = stripNonDigits s ∧
    (convert_11_to_10_warning s).isSome = true := by
  have hdet := detect_11_unknown h h1 h2 h3
  refine ⟨?_, ?_, ?_⟩
  · rw [hdet]
  · unfold convert_11_to_10
    rw [hdet]
  · unfold convert_11_to_10_warning
    rw [hdet]
    rfl

/-- Witness for C3 at the example `"11111111111"` from the spec. -/
theorem ndc_C3_witness :
    convert_11_to_10 "11111111111" = "11111111111" ∧
    (convert_11_to_10_warning "11111111111").isSome = true := by
  have h := ndc_C3_unknown_diagnostic_identity "11111111111"
    (by decide) (by decide) (by decide) (by decide)
  exact ⟨h.2.1.trans (by decide), h.2.2⟩

/-- Claim C4: on a stripped digit string of length exactly 10,
`detect_10_digit_format` classifies by the fixed priority the spec
states: leading digit in `{0,1,2,3}` gives 4-4-2, else positions 5–8
below 9999 give 5-4-1, else 5-3-2 (`detectTenDigitFormatSpec` is that
wording verbatim). -/
theorem ndc_C4_detect_10_matches_spec (s : String)
    (h : (stripNonDigits s).length = 10) :
    detect_10_digit_format s =
      (some (detectTenDigitFormatSpec (stripNonDigits s)), stripNonDigits s) := by
  by_cases h0 : (stripNonDigits s).data.getD 0 ' ' ∈ (['0', '1', '2', '3'] : List Char)
  · rw [detect_10_f442 h h0]
    unfold detectTenDigitFormatSpec
    rw [if_pos h0]
  · by_cases hv : digitsVal (((stripNonDigits s).data.drop 5).take 4) < 9999
    · rw [detect_10_f541 h h0 hv]
      unfold detectTenDigitFormatSpec
      rw [if_neg h0, if_pos hv]
    · rw [detect_10_f532 h h0 hv]
      unfold detectTenDigitFormatSpec
      rw [if_neg h0, if_neg hv]

/-- Witness for C4 at a separator-formatted 10-digit input. -/
theorem ndc_C4_witness :
    detect_10_digit_format "1234-5678-90" = (some .f442, "1234567890") := by
  rw [ndc_C4_detect_10_matches_spec "1234-5678-90" (by decide)]
  decide

/-- Claim C6: whenever the stripped digit length is not exactly 10,
`convert_10_to_11` returns its input unchanged (both the
already-11-digits case and every other length). -/
theorem ndc_C6_convert_10_identity (s : String)
    (h : (stripNonDigits s).length ≠ 10) :
    convert_10_to_11 s = s :=
  convert_10_id_of_len_ne h

/-- Witness for C6 at the example `"99999"` from the spec. -/
theorem ndc_C6_witness : convert_10_to_11 "99999" = "99999" :=
  ndc_C6_convert_10_identity "99999" (by decide)

/-- Claim C7: whenever the stripped digit length is not exactly 11,
`convert_11_to_10` returns its input unchanged. -/
theorem ndc_C7_convert_11_identity (s : String)
    (h : (stripNonDigits s).length ≠ 11) :
    convert_11_to_10 s = s :=
  convert_11_id_of_len_ne h

/-- Witness for C7. -/
theorem ndc_C7_witness : convert_11_to_10 "1234-5678-90" = "1234-5678-90" :=
  ndc_C7_convert_11_identity "1234-5678-90" (by decide)

/-- Claim C8: `detect_10_digit_format` returns `(None, stripped digits)`
when the stripped length is 11 but `(None, original unstripped input)`
for every other non-10 length — the not-convertible branch deliberately
preserves the original input. -/
theorem ndc_C8_not_applicable_asymmetry (s : String) :
    ((stripNonDigits s).length = 11 →
      detect_10_digit_format s = (none, stripNonDigits s)) ∧
    ((stripNonDigits s).length ≠ 10 → (stripNonDigits s).length ≠ 11 →
      detect_10_digit_format s = (none, s)) :=
  ⟨fun h => detect_10_of_len11 h, fun h10 h11 => detect_10_of_len_other h10 h11⟩

/-- Witness for C8: an 11-digit separator-formatted input comes back
stripped, a short one comes back as typed. -/
theorem ndc_C8_witness :
    detect_10_digit_format "123-456-789-01" = (none, "12345678901") ∧
    detect_10_digit_format "12-34" = (none, "12-34") := by
  constructor
  · rw [(ndc_C8_not_applicable_asymmetry "123-456-789-01").1 (by decide)]
    decide
  · exact (ndc_C8_not_applicable_asymmetry "12-34").2 (by decide) (by decide)

/-- Claim C5: on any input whose stripped digit string has length exactly
10, the output of `convert_10_to_11` consists of exactly 11 digits. -/
theorem ndc_C5_output_eleven_digits (s : String)
    (h : (stripNonDigits s).length = 10) :
    (convert_10_to_11 s).length = 11 ∧ AllDigits (convert_10_to_11 s) := by
  obtain ⟨f, hf, hdet⟩ := detect_10_some h
  have hdig : ∀ c ∈ (stripNonDigits s).data, c.isDigit = true := strip_allDigits s
  have hdl : (stripNonDigits s).data.length = 10 := h
  rcases hf with rfl | rfl | rfl
  · unfold convert_10_to_11
    rw [hdet]
    constructor
    · rw [string_mk_length, List.length_cons, hdl]
    · exact allDigits_insert (stripNonDigits s).data hdig 0
  · unfold convert_10_to_11
    rw [hdet]
    constructor
    · rw [string_mk_length, insert_length _ 5 (by omega), hdl]
    · exact allDigits_insert (stripNonDigits s).data hdig 5
  · unfold convert_10_to_11
    rw [hdet]
    constructor
    · rw [string_mk_length, insert_length _ 9 (by omega), hdl]
    · exact allDigits_insert (stripNonDigits s).data hdig 9

/-- Witness for C5. -/
theorem ndc_C5_witness :
    (convert_10_to_11 "1234567890").length = 11 ∧
    AllDigits (convert_10_to_11 "1234567890") :=
  ndc_C5_output_eleven_digits "1234567890" (by decide)

/-- Claim C9: on a 10-digit string whose first digit is outside
`{0,1,2,3}`, the detector answers 5-3-2 exactly when positions 5–8 read
`"9999"`, and answers 5-4-1 in every other such case. -/
theorem ndc_C9_f532_needs_9999 (s : String)
    (h : (stripNonDigits s).length = 10)
    (h0 : (stripNonDigits s).data.getD 0 ' ' ∉ (['0', '1', '2', '3'] : List Char)) :
    ((detect_10_digit_format s).1 = some .f532 ↔
      ((stripNonDigits s).data.drop 5).take 4 = ['9', '9', '9', '9']) ∧
    (((stripNonDigits s).data.drop 5).take 4 ≠ ['9', '9', '9', '9'] →
      (detect_10_digit_format s).1 = some .f541) := by
  obtain ⟨a, b, c, d, hpc, ha, hb, hc, hd⟩ := pc_slice h
  have hiff := digitsVal_lt_iff ha hb hc hd
  by_cases hv : digitsVal [a, b, c, d] < 9999
  · have hv' : digitsVal (((stripNonDigits s).data.drop 5).take 4) < 9999 := by
      rw [hpc]; exact hv
    have hfst : (detect_10_digit_format s).1 = some .f541 := by
      rw [detect_10_f541 h h0 hv']
    constructor
    · constructor
      · intro habs
        rw [hfst] at habs
        exact NdcFormat.noConfusion (Option.some.inj habs)
      · intro h99
        rw [hpc] at h99
        exact absurd h99 (hiff.mp hv)
    · intro _
      exact hfst
  · have hv' : ¬ digitsVal (((stripNonDigits s).data.drop 5).take 4) < 9999 := by
      rw [hpc]; exact hv
    have hfst : (detect_10_digit_format s).1 = some .f532 := by
      rw [detect_10_f532 h h0 hv']
    have h99 : [a, b, c, d] = ['9', '9', '9', '9'] := by
      by_contra hne
      exact hv (hiff.mpr hne)
    constructor
    · constructor
      · intro _
        rw [hpc]
        exact h99
      · intro _
        exact hfst
    · intro hne
      rw [hpc] at hne
      exact absurd h99 hne

/-- Witness for C9: one input on each side of the 9999 boundary. -/
theorem ndc_C9_witness :
    (detect_10_digit_format "9876599990").1 = some .f532 ∧
    (detect_10_digit_format "9876512340").1 = some .f541 := by
  constructor
  · exact ((ndc_C9_f532_needs_9999 "9876599990" (by decide) (by decide)).1).mpr (by decide)
  · exact (ndc_C9_f532_needs_9999 "9876512340" (by decide) (by decide)).2 (by decide)

/-- Claim C10: on a 10-digit input, detection always yields one of the
three real layouts, and `convert_10_to_11` runs the matching insertion —
its trailing `return ndc_digits` fallback never fires. -/
theorem ndc_C10_detector_total_fallback_dead (s : String)
    (h : (stripNonDigits s).length = 10) :
    (detect_10_digit_format s = (some .f442, stripNonDigits s) ∧
      convert_10_to_11 s = ⟨'0' :: (stripNonDigits s).data⟩) ∨
    (detect_10_digit_format s = (some .f532, stripNonDigits s) ∧
      convert_10_to_11 s =
        ⟨(stripNonDigits s).data.take 5 ++ '0' :: (stripNonDigits s).data.drop 5⟩) ∨
    (detect_10_digit_format s = (some .f541, stripNonDigits s) ∧
      convert_10_to_11 s =
        ⟨(stripNonDigits s).data.take 9 ++ '0' :: (stripNonDigits s).data.drop 9⟩) := by
  obtain ⟨f, hf, hdet⟩ := detect_10_some h
  rcases hf with rfl | rfl | rfl
  · exact Or.inl ⟨hdet, by unfold convert_10_to_11; rw [hdet]⟩
  · exact Or.inr (Or.inl ⟨hdet, by unfold convert_10_to_11; rw [hdet]⟩)
  · exact Or.inr (Or.inr ⟨hdet, by unfold convert_10_to_11; rw [hdet]⟩)

/-- Witness for C10. -/
theorem ndc_C10_witness :
    (detect_10_digit_format "1234567890" = (some .f442, stripNonDigits "1234567890") ∧
      convert_10_to_11 "1234567890" = ⟨'0' :: (stripNonDigits "1234567890").data⟩) ∨
    (detect_10_digit_format "1234567890" = (some .f532, stripNonDigits "1234567890") ∧
      convert_10_to_11 "1234567890" =
        ⟨(stripNonDigits "1234567890").data.take 5 ++
          '0' :: (stripNonDigits "1234567890").data.drop 5⟩) ∨
    (detect_10_digit_format "1234567890" = (some .f541, stripNonDigits "1234567890") ∧
      convert_10_to_11 "1234567890" =
        ⟨(stripNonDigits "1234567890").data.take 9 ++
          '0' :: (stripNonDigits "1234567890").data.drop 9⟩) :=
  ndc_C10_detector_total_fallback_dead "1234567890" (by decide)

/-- Counterexample to claim C1 as stated.  The valid 10-digit digit
string `"0123056789"` expands (as 4-4-2) to `"00123056789"`, whose
layout is unambiguous under the marker criterion of the detector: exactly
one of the three padding markers matches (the 5-3-2 one), so detection
does not resolve to unknown.  Yet converting back removes the wrong
digit and yields `"0012356789"`, not the original string. -/
theorem ndc_C1_round_trip_counterexample :
    stripNonDigits "0123056789" = "0123056789" ∧
    (stripNonDigits "0123056789").length = 10 ∧
    markerCount (convert_10_to_11 "0123056789").data = 1 ∧
    (detect_11_digit_format (convert_10_to_11 "0123056789")).1 ≠ some .unknown ∧
    convert_11_to_10 (convert_10_to_11 "0123056789") = "0012356789" ∧
    convert_11_to_10 (convert_10_to_11 "0123056789") ≠ "0123056789" := by
  decide

/-- Claim C1 (amended): the round trip
`convert_11_to_10 (convert_10_to_11 d) = d` holds for every 10-digit
digit string `d` on which the 11-digit detector, applied to the expanded
string, reports the same layout the 10-digit detector assigned to `d`.
(Mere marker-uniqueness of the expanded string is not enough, as the
counterexample shows.) -/
theorem ndc_C1_round_trip_amended (d : String) (hlen : d.length = 10)
    (hdig : AllDigits d)
    (hagree : (detect_11_digit_format (convert_10_to_11 d)).1 =
      (detect_10_digit_format d).1) :
    convert_11_to_10 (convert_10_to_11 d) = d := by
  have hsd : stripNonDigits d = d := allDigits_strip_eq hdig
  have hslen : (stripNonDigits d).length = 10 := by rw [hsd]; exact hlen
  have hdl : d.data.length = 10 := hlen
  obtain ⟨f, hf, hdet⟩ := detect_10_some hslen
  rw [hsd] at hdet
  rcases hf with rfl | rfl | rfl
  · have hconv : convert_10_to_11 d = ⟨'0' :: d.data⟩ := by
      unfold convert_10_to_11
      rw [hdet]
    rw [hconv] at hagree ⊢
    rw [hdet] at hagree
    have hedig : AllDigits (⟨'0' :: d.data⟩ : String) := allDigits_insert d.data hdig 0
    have hdet11 : detect_11_digit_format ⟨'0' :: d.data⟩ = (some .f442, ⟨'0' :: d.data⟩) :=
      Prod.ext_iff.mpr ⟨hagree, (detect_11_snd _).trans (allDigits_strip_eq hedig)⟩
    unfold convert_11_to_10
    rw [hdet11]
    rfl
  · have hconv : convert_10_to_11 d = ⟨d.data.take 5 ++ '0' :: d.data.drop 5⟩ := by
      unfold convert_10_to_11
      rw [hdet]
    rw [hconv] at hagree ⊢
    rw [hdet] at hagree
    have hedig : AllDigits (⟨d.data.take 5 ++ '0' :: d.data.drop 5⟩ : String) :=
      allDigits_insert d.data hdig 5
    have hdet11 : detect_11_digit_format ⟨d.data.take 5 ++ '0' :: d.data.drop 5⟩ =
        (some .f532, ⟨d.data.take 5 ++ '0' :: d.data.drop 5⟩) :=
      Prod.ext_iff.mpr ⟨hagree, (detect_11_snd _).trans (allDigits_strip_eq hedig)⟩
    unfold convert_11_to_10
    rw [hdet11]
    exact congrArg String.mk (remove_insert d.data 5 (by omega))
  · have hconv : convert_10_to_11 d = ⟨d.data.take 9 ++ '0' :: d.data.drop 9⟩ := by
      unfold convert_10_to_11
      rw [hdet]
    rw [hconv] at hagree ⊢
    rw [hdet] at hagree
    have hedig : AllDigits (⟨d.data.take 9 ++ '0' :: d.data.drop 9⟩ : String) :=
      allDigits_insert d.data hdig 9
    have hdet11 : detect_11_digit_format ⟨d.data.take 9 ++ '0' :: d.data.drop 9⟩ =
        (some .f541, ⟨d.data.take 9 ++ '0' :: d.data.drop 9⟩) :=
      Prod.ext_iff.mpr ⟨hagree, (detect_11_snd _).trans (allDigits_strip_eq hedig)⟩
    unfold convert_11_to_10
    rw [hdet11]
    exact congrArg String.mk (remove_insert d.data 9 (by omega))

/-- Witness for the amended C1 at `"1234567890"` (both detectors agree
on 4-4-2 there). -/
theorem ndc_C1_round_trip_witness :
    convert_11_to_10 (convert_10_to_11 "1234567890") = "1234567890" :=
  ndc_C1_round_trip_amended "1234567890" (by decide)
    (by unfold AllDigits; decide) (by decide)
